import Mathlib

set_option maxRecDepth 100000

/-!
Shallow embedding of the SHEIKE facial scoring and quality-gate engine
(`src/lib/mediapipe` landmark module, `FacialMetricsCalculator`, and
`QualityValidator` in `src/lib/quality.ts`).

Modelling conventions:
* JavaScript `number` is modelled as `ℚ`.  Division is Lean's totalized
  field division (`x / 0 = 0`); the two places where the source can divide
  `0 / 0` into a `NaN` that later matters (the empty-interior averages in
  `estimateBlur` and `estimateNoise`) are modelled explicitly with
  `Option ℚ`, `none` standing for `NaN`, and every comparison against such
  a value is `false`, as in JavaScript.
* `Math.sqrt`, `Math.atan2`, `Math.acos` and the factor `180 / Math.PI`
  are irrational-valued; they are kept abstract in a `Prims` record, and
  theorems assume only what they need of them (e.g. `sqrt 0 = 0`).
* Thrown exceptions are modelled with `Except` / `Option`.
-/

namespace SHEIKE

/-- Abstract numeric primitives of the JavaScript `Math` object used by the
source.  `degPerRad` stands for the constant `180 / Math.PI`. -/
structure Prims where
  sqrt : ℚ → ℚ
  atan2 : ℚ → ℚ → ℚ
  acos : ℚ → ℚ
  degPerRad : ℚ

/-- `NormalizedLandmark` of `src/types/mediapipe`: a detected facial point in
normalized image coordinates, with optional depth and visibility. -/
structure NormalizedLandmark where
  x : ℚ
  y : ℚ
  z : Option ℚ := none
  visibility : Option ℚ := none
  deriving DecidableEq, Repr

namespace Mediapipe

/-- `LANDMARK_INDICES.LEFT_EYE` from the mediapipe module. -/
def LEFT_EYE : List ℕ := [33, 7, 163, 144, 145, 153, 154, 155, 133, 173, 157, 158, 159, 160, 161, 246]

/-- `LANDMARK_INDICES.RIGHT_EYE`. -/
def RIGHT_EYE : List ℕ := [362, 382, 381, 380, 374, 373, 390, 249, 263, 466, 388, 387, 386, 385, 384, 398]

/-- `LANDMARK_INDICES.NOSE_TIP`. -/
def NOSE_TIP : List ℕ := [1, 2, 5, 4, 6, 19, 20, 94, 125, 141, 235, 236, 237, 238, 239, 240, 241, 242]

/-- `LANDMARK_INDICES.NOSE_BRIDGE`. -/
def NOSE_BRIDGE : List ℕ := [6, 9, 10, 151, 195, 197, 196, 3, 51, 48, 115, 131, 134, 102, 49, 220]

/-- `LANDMARK_INDICES.NOSTRIL_LEFT`. -/
def NOSTRIL_LEFT : List ℕ := [235, 31, 228, 229, 230, 231, 232, 233, 244, 245, 122, 6, 202, 214, 234]

/-- `LANDMARK_INDICES.NOSTRIL_RIGHT`. -/
def NOSTRIL_RIGHT : List ℕ := [455, 462, 459, 458, 457, 456, 448, 449, 451, 452, 453, 464, 435, 410, 454]

/-- `LANDMARK_INDICES.JAW_LEFT`. -/
def JAW_LEFT : List ℕ := [172, 136, 150, 149, 176, 148, 152, 377, 400, 378, 379, 365, 397, 288, 361, 323]

/-- `LANDMARK_INDICES.JAW_RIGHT`. -/
def JAW_RIGHT : List ℕ := [397, 365, 379, 378, 400, 377, 152, 148, 176, 149, 150, 136, 172, 58, 132, 93]

/-- `LANDMARK_INDICES.CHIN`.  Note positions 4 and 12 both hold index 9. -/
def CHIN : List ℕ := [18, 175, 199, 200, 9, 10, 151, 175, 18, 175, 199, 200, 9, 10, 151]

/-- `LANDMARK_INDICES.FACE_OUTLINE`. -/
def FACE_OUTLINE : List ℕ := [10, 338, 297, 332, 284, 251, 389, 356, 454, 323, 361, 288, 397, 365, 379, 378, 400, 377, 152, 148, 176, 149, 150, 136, 172, 58, 132, 93, 234, 127, 162, 21, 54, 103, 67, 109]

/-- `extractLandmarksByIndices`: selects the points at `indices`; the source
throws when an index resolves to no landmark, modelled as `none`. -/
def extractLandmarksByIndices (landmarks : List NormalizedLandmark)
    (indices : List ℕ) : Option (List NormalizedLandmark) :=
  indices.mapM (fun index => landmarks[index]?)

/-- `calculateDistance`: planar Euclidean distance (z ignored). -/
def calculateDistance (P : Prims) (point1 point2 : NormalizedLandmark) : ℚ :=
  let dx := point1.x - point2.x
  let dy := point1.y - point2.y
  P.sqrt (dx * dx + dy * dy)

/-- `calculateAngle`: the angle in degrees at `center` between the rays to
`point1` and `point2`, 0 when either ray is degenerate; the cosine is
clamped to `[-1, 1]` before `acos`. -/
def calculateAngle (P : Prims) (point1 center point2 : NormalizedLandmark) : ℚ :=
  let v1x := point1.x - center.x
  let v1y := point1.y - center.y
  let v2x := point2.x - center.x
  let v2y := point2.y - center.y
  let dot := v1x * v2x + v1y * v2y
  let mag1 := P.sqrt (v1x * v1x + v1y * v1y)
  let mag2 := P.sqrt (v2x * v2x + v2y * v2y)
  if mag1 = 0 ∨ mag2 = 0 then 0
  else
    let cosAngle := dot / (mag1 * mag2)
    P.acos (max (-1) (min 1 cosAngle)) * P.degPerRad

end Mediapipe

/-- `SingleEyeMetrics` of `src/types/metrics`. -/
structure SingleEyeMetrics where
  width : ℚ
  height : ℚ
  aspectRatio : ℚ
  tilt : ℚ
  landmarks : List NormalizedLandmark
  deriving DecidableEq, Repr

/-- `EyeMetrics`. -/
structure EyeMetrics where
  leftEye : SingleEyeMetrics
  rightEye : SingleEyeMetrics
  interPupillaryDistance : ℚ
  eyeSymmetry : ℚ
  deriving DecidableEq, Repr

/-- `NoseMetrics`. -/
structure NoseMetrics where
  width : ℚ
  length : ℚ
  tipProjection : ℚ
  bridgeWidth : ℚ
  nostrilSymmetry : ℚ
  landmarks : List NormalizedLandmark
  deriving DecidableEq, Repr

/-- `JawMetrics`. -/
structure JawMetrics where
  width : ℚ
  angle : ℚ
  chinProjection : ℚ
  lowerFaceRatio : ℚ
  asymmetry : ℚ
  landmarks : List NormalizedLandmark
  deriving DecidableEq, Repr

/-- `FacialFeatures`. -/
structure FacialFeatures where
  eyes : EyeMetrics
  nose : NoseMetrics
  jaw : JawMetrics
  deriving DecidableEq, Repr

/-- `QualityScores`: the four 0-100 integer scores. -/
structure QualityScores where
  eyes : ℤ
  nose : ℤ
  jaw : ℤ
  overall : ℤ
  deriving DecidableEq, Repr

/-- The `eyes` block of `BaselineRanges`: per quantity a `[min, max]` band. -/
structure EyeBaselines where
  aspectRatio : ℚ × ℚ
  symmetry : ℚ × ℚ
  tilt : ℚ × ℚ
  deriving DecidableEq, Repr

/-- The `nose` block of `BaselineRanges`. -/
structure NoseBaselines where
  widthRatio : ℚ × ℚ
  projection : ℚ × ℚ
  symmetry : ℚ × ℚ
  deriving DecidableEq, Repr

/-- The `jaw` block of `BaselineRanges`. -/
structure JawBaselines where
  angle : ℚ × ℚ
  chinRatio : ℚ × ℚ
  asymmetry : ℚ × ℚ
  deriving DecidableEq, Repr

/-- `BaselineRanges`. -/
structure BaselineRanges where
  eyes : EyeBaselines
  nose : NoseBaselines
  jaw : JawBaselines
  deriving DecidableEq, Repr

/-- The `eyes` block of `WeightingFactors`. -/
structure EyeWeights where
  aspectRatio : ℚ
  symmetry : ℚ
  tilt : ℚ
  deriving DecidableEq, Repr

/-- The `nose` block of `WeightingFactors`. -/
structure NoseWeights where
  width : ℚ
  projection : ℚ
  symmetry : ℚ
  deriving DecidableEq, Repr

/-- The `jaw` block of `WeightingFactors`. -/
structure JawWeights where
  angle : ℚ
  projection : ℚ
  asymmetry : ℚ
  deriving DecidableEq, Repr

/-- `WeightingFactors`. -/
structure WeightingFactors where
  eyes : EyeWeights
  nose : NoseWeights
  jaw : JawWeights
  deriving DecidableEq, Repr

/-- `DEFAULT_BASELINE_RANGES`. -/
def DEFAULT_BASELINE_RANGES : BaselineRanges where
  eyes := { aspectRatio := (2.8, 3.2), symmetry := (0.9, 1.1), tilt := (-5, 5) }
  nose := { widthRatio := (0.75, 0.85), projection := (0.67, 0.75), symmetry := (0.9, 1.1) }
  jaw := { angle := (120, 130), chinRatio := (0.85, 0.95), asymmetry := (0.95, 1.05) }

/-- `DEFAULT_WEIGHTING_FACTORS`. -/
def DEFAULT_WEIGHTING_FACTORS : WeightingFactors where
  eyes := { aspectRatio := 0.4, symmetry := 0.35, tilt := 0.25 }
  nose := { width := 0.4, projection := 0.35, symmetry := 0.25 }
  jaw := { angle := 0.45, projection := 0.3, asymmetry := 0.25 }

/-- `MetricsCalculationError`, reduced to its `code` discriminant (plus the
received landmark count carried by the insufficient-landmarks message). -/
inductive MetricsCalculationError where
  | insufficientLandmarks (got : ℕ)
  | calculationError
  deriving DecidableEq, Repr

namespace Metrics

open Mediapipe

/-- `FacialMetricsCalculator.calculateCentroid`: componentwise mean, missing
z treated as 0 (the result's z is always present). -/
def calculateCentroid (landmarks : List NormalizedLandmark) : NormalizedLandmark :=
  let sumX := (landmarks.map (fun landmark => landmark.x)).sum
  let sumY := (landmarks.map (fun landmark => landmark.y)).sum
  let sumZ := (landmarks.map (fun landmark => landmark.z.getD 0)).sum
  { x := sumX / landmarks.length, y := sumY / landmarks.length,
    z := some (sumZ / landmarks.length) }

/-- `calculateSingleEyeMetrics`: width from positions 0 and 8, height from
positions 4 and 12, tilt from the corner-to-corner line; a missing position
(source: thrown `Error`) is `none`. -/
def calculateSingleEyeMetrics (P : Prims)
    (eyeLandmarks : List NormalizedLandmark) : Option SingleEyeMetrics := do
  let leftCorner ← eyeLandmarks[0]?
  let rightCorner ← eyeLandmarks[8]?
  let width := calculateDistance P leftCorner rightCorner
  let topPoint ← eyeLandmarks[4]?
  let bottomPoint ← eyeLandmarks[12]?
  let height := calculateDistance P topPoint bottomPoint
  let aspectRatio := width / height
  let tilt := P.atan2 (rightCorner.y - leftCorner.y) (rightCorner.x - leftCorner.x) * P.degPerRad
  pure { width, height, aspectRatio, tilt, landmarks := eyeLandmarks }

/-- `calculateEyeMetrics`. -/
def calculateEyeMetrics (P : Prims)
    (landmarks : List NormalizedLandmark) : Option EyeMetrics := do
  let leftEyeLandmarks ← extractLandmarksByIndices landmarks LEFT_EYE
  let rightEyeLandmarks ← extractLandmarksByIndices landmarks RIGHT_EYE
  let leftEye ← calculateSingleEyeMetrics P leftEyeLandmarks
  let rightEye ← calculateSingleEyeMetrics P rightEyeLandmarks
  let leftCenter := calculateCentroid leftEyeLandmarks
  let rightCenter := calculateCentroid rightEyeLandmarks
  let interPupillaryDistance := calculateDistance P leftCenter rightCenter
  let eyeSymmetry := leftEye.width / rightEye.width
  pure { leftEye, rightEye, interPupillaryDistance, eyeSymmetry }

/-- `calculateNostrilWidth`: distance between positions 0 and 8 of a nostril
group. -/
def calculateNostrilWidth (P : Prims)
    (nostrilLandmarks : List NormalizedLandmark) : Option ℚ := do
  let outerPoint ← nostrilLandmarks[0]?
  let innerPoint ← nostrilLandmarks[8]?
  pure (calculateDistance P outerPoint innerPoint)

/-- `calculateNoseMetrics`. -/
def calculateNoseMetrics (P : Prims)
    (landmarks : List NormalizedLandmark) : Option NoseMetrics := do
  let noseTipLandmarks ← extractLandmarksByIndices landmarks NOSE_TIP
  let noseBridgeLandmarks ← extractLandmarksByIndices landmarks NOSE_BRIDGE
  let leftNostrilLandmarks ← extractLandmarksByIndices landmarks NOSTRIL_LEFT
  let rightNostrilLandmarks ← extractLandmarksByIndices landmarks NOSTRIL_RIGHT
  let leftNostril ← leftNostrilLandmarks[0]?
  let rightNostril ← rightNostrilLandmarks[0]?
  let width := calculateDistance P leftNostril rightNostril
  let bridgeTop ← noseBridgeLandmarks[0]?
  let noseTip ← noseTipLandmarks[0]?
  let length := calculateDistance P bridgeTop noseTip
  let tipProjection := noseTip.z.getD 0
  let bridgeLeft ← noseBridgeLandmarks[4]?
  let bridgeRight ← noseBridgeLandmarks[12]?
  let bridgeWidth := calculateDistance P bridgeLeft bridgeRight
  let leftNostrilWidth ← calculateNostrilWidth P leftNostrilLandmarks
  let rightNostrilWidth ← calculateNostrilWidth P rightNostrilLandmarks
  let nostrilSymmetry := leftNostrilWidth / rightNostrilWidth
  let allNoseLandmarks := noseTipLandmarks ++ noseBridgeLandmarks ++
    leftNostrilLandmarks ++ rightNostrilLandmarks
  pure { width, length, tipProjection, bridgeWidth, nostrilSymmetry,
         landmarks := allNoseLandmarks }

/-- `calculateChinWidth`: distance between positions 4 and 12 of the chin
group (both positions hold landmark index 9). -/
def calculateChinWidth (P : Prims)
    (chinLandmarks : List NormalizedLandmark) : Option ℚ := do
  let leftChin ← chinLandmarks[4]?
  let rightChin ← chinLandmarks[12]?
  pure (calculateDistance P leftChin rightChin)

/-- `calculateJawSideSize`: perimeter of consecutive distances along a jaw
side (indices in range always resolve, mirroring the source's guard). -/
def calculateJawSideSize (P : Prims)
    (jawSideLandmarks : List NormalizedLandmark) : ℚ :=
  (List.range (jawSideLandmarks.length - 1)).foldl
    (fun perimeter i =>
      match jawSideLandmarks[i]?, jawSideLandmarks[i + 1]? with
      | some current, some next => perimeter + calculateDistance P current next
      | _, _ => perimeter)
    0

/-- `calculateJawMetrics`. -/
def calculateJawMetrics (P : Prims)
    (landmarks : List NormalizedLandmark) : Option JawMetrics := do
  let leftJawLandmarks ← extractLandmarksByIndices landmarks JAW_LEFT
  let rightJawLandmarks ← extractLandmarksByIndices landmarks JAW_RIGHT
  let chinLandmarks ← extractLandmarksByIndices landmarks CHIN
  let leftJawPoint ← leftJawLandmarks[0]?
  let rightJawPoint ← rightJawLandmarks[0]?
  let width := calculateDistance P leftJawPoint rightJawPoint
  let chinPoint ← chinLandmarks[0]?
  let angle := calculateAngle P leftJawPoint chinPoint rightJawPoint
  let chinProjection := chinPoint.z.getD 0
  let chinWidth ← calculateChinWidth P chinLandmarks
  let lowerFaceRatio := chinWidth / width
  let leftJawSize := calculateJawSideSize P leftJawLandmarks
  let rightJawSize := calculateJawSideSize P rightJawLandmarks
  let asymmetry := leftJawSize / rightJawSize
  let allJawLandmarks := leftJawLandmarks ++ rightJawLandmarks ++ chinLandmarks
  pure { width, angle, chinProjection, lowerFaceRatio, asymmetry,
         landmarks := allJawLandmarks }

/-- `calculateFacialFeatures`: fails with the insufficient-landmarks code
below 468 points, otherwise computes the three regions; an inner failure
(source: any thrown error in the `try` block) becomes `calculationError`. -/
def calculateFacialFeatures (P : Prims) (landmarks : List NormalizedLandmark) :
    Except MetricsCalculationError FacialFeatures :=
  if landmarks.length < 468 then
    Except.error (MetricsCalculationError.insufficientLandmarks landmarks.length)
  else
    match (do
      let eyes ← calculateEyeMetrics P landmarks
      let nose ← calculateNoseMetrics P landmarks
      let jaw ← calculateJawMetrics P landmarks
      pure { eyes, nose, jaw } : Option FacialFeatures) with
    | some features => Except.ok features
    | none => Except.error MetricsCalculationError.calculationError

/-- `calculateDeviation`: 0 inside the ideal band, otherwise the distance to
the band's center over the band's size, capped at 1. -/
def calculateDeviation (value : ℚ) (idealRange : ℚ × ℚ) : ℚ :=
  if idealRange.1 ≤ value ∧ value ≤ idealRange.2 then 0
  else
    let center := (idealRange.1 + idealRange.2) / 2
    let rangeSize := idealRange.2 - idealRange.1
    min (|value - center| / rangeSize) 1

/-- `deviationToScore`: `100 * (1 - weightedDeviation)` clamped to
`[0, 100]`. -/
def deviationToScore (weightedDeviation : ℚ) : ℚ :=
  let score := 100 * (1 - weightedDeviation)
  max 0 (min 100 score)

/-- `calculateEyeScore`. -/
def calculateEyeScore (B : BaselineRanges) (W : WeightingFactors)
    (eyeMetrics : EyeMetrics) : ℚ :=
  let aspectRatioDeviation := calculateDeviation
    ((eyeMetrics.leftEye.aspectRatio + eyeMetrics.rightEye.aspectRatio) / 2)
    B.eyes.aspectRatio
  let symmetryDeviation := calculateDeviation eyeMetrics.eyeSymmetry B.eyes.symmetry
  let tiltDeviation := calculateDeviation
    ((|eyeMetrics.leftEye.tilt| + |eyeMetrics.rightEye.tilt|) / 2)
    B.eyes.tilt
  deviationToScore (W.eyes.aspectRatio * aspectRatioDeviation +
    W.eyes.symmetry * symmetryDeviation + W.eyes.tilt * tiltDeviation)

/-- `calculateNoseScore`. -/
def calculateNoseScore (B : BaselineRanges) (W : WeightingFactors)
    (noseMetrics : NoseMetrics) : ℚ :=
  let normalizedWidth := noseMetrics.width / noseMetrics.bridgeWidth
  let widthDeviation := calculateDeviation normalizedWidth B.nose.widthRatio
  let projectionDeviation := calculateDeviation (|noseMetrics.tipProjection|) B.nose.projection
  let symmetryDeviation := calculateDeviation noseMetrics.nostrilSymmetry B.nose.symmetry
  deviationToScore (W.nose.width * widthDeviation +
    W.nose.projection * projectionDeviation + W.nose.symmetry * symmetryDeviation)

/-- `calculateJawScore`. -/
def calculateJawScore (B : BaselineRanges) (W : WeightingFactors)
    (jawMetrics : JawMetrics) : ℚ :=
  let angleDeviation := calculateDeviation jawMetrics.angle B.jaw.angle
  let projectionDeviation := calculateDeviation jawMetrics.lowerFaceRatio B.jaw.chinRatio
  let asymmetryDeviation := calculateDeviation jawMetrics.asymmetry B.jaw.asymmetry
  deviationToScore (W.jaw.angle * angleDeviation +
    W.jaw.projection * projectionDeviation + W.jaw.asymmetry * asymmetryDeviation)

/-- `calculateQualityScores`: the three region scores rounded to integers,
and `overall` the rounded mean of the three unrounded region scores
(`Math.round` rounds half towards positive infinity, as does Lean's
`round`). -/
def calculateQualityScores (B : BaselineRanges) (W : WeightingFactors)
    (features : FacialFeatures) : QualityScores :=
  let eyeScore := calculateEyeScore B W features.eyes
  let noseScore := calculateNoseScore B W features.nose
  let jawScore := calculateJawScore B W features.jaw
  let overall := (eyeScore + noseScore + jawScore) / 3
  { eyes := round eyeScore, nose := round noseScore, jaw := round jawScore,
    overall := round overall }

end Metrics

/-- Issue severity of `src/types/quality`. -/
inductive Severity where
  | low
  | medium
  | high
  deriving DecidableEq, Repr

/-- `QualityIssueType`. -/
inductive QualityIssueType where
  | face_angle
  | brightness
  | contrast
  | blur
  | face_size
  | face_position
  | multiple_faces
  | no_face_detected
  | partial_face
  | poor_lighting
  | shadow
  | reflection
  deriving DecidableEq, Repr

/-- `QualityIssue`.  `value` is optional in the source; where the source
stores the (possibly `NaN`) blur metric, the `NaN` case is `none`. -/
structure QualityIssue where
  type : QualityIssueType
  severity : Severity
  message : String
  value : Option ℚ := none
  threshold : Option ℚ := none
  deriving DecidableEq, Repr

/-- `QualityCheckResult`. -/
structure QualityCheckResult where
  isValid : Bool
  issues : List QualityIssue
  confidence : ℚ
  recommendations : List String
  deriving DecidableEq, Repr

/-- The `faceAngle` block of `QualityThresholds`. -/
structure FaceAngleThresholds where
  maxYaw : ℚ
  maxPitch : ℚ
  maxRoll : ℚ
  deriving DecidableEq, Repr

/-- The `brightness` block of `QualityThresholds`. -/
structure BrightnessThresholds where
  min : ℚ
  max : ℚ
  deriving DecidableEq, Repr

/-- The `contrast` block of `QualityThresholds`. -/
structure ContrastThresholds where
  min : ℚ
  deriving DecidableEq, Repr

/-- The `blur` block of `QualityThresholds`. -/
structure BlurThresholds where
  max : ℚ
  deriving DecidableEq, Repr

/-- The `faceSize` block of `QualityThresholds`. -/
structure FaceSizeThresholds where
  minWidth : ℚ
  minHeight : ℚ
  maxWidth : ℚ
  maxHeight : ℚ
  deriving DecidableEq, Repr

/-- The `facePosition` block of `QualityThresholds`. -/
structure FacePositionThresholds where
  centerTolerance : ℚ
  deriving DecidableEq, Repr

/-- `QualityThresholds`. -/
structure QualityThresholds where
  faceAngle : FaceAngleThresholds
  brightness : BrightnessThresholds
  contrast : ContrastThresholds
  blur : BlurThresholds
  faceSize : FaceSizeThresholds
  facePosition : FacePositionThresholds
  deriving DecidableEq, Repr

/-- `DEFAULT_QUALITY_THRESHOLDS`. -/
def DEFAULT_QUALITY_THRESHOLDS : QualityThresholds where
  faceAngle := { maxYaw := 15, maxPitch := 15, maxRoll := 10 }
  brightness := { min := 80, max := 200 }
  contrast := { min := 30 }
  blur := { max := 0.1 }
  faceSize := { minWidth := 0.3, minHeight := 0.4, maxWidth := 0.8, maxHeight := 0.9 }
  facePosition := { centerTolerance := 0.15 }

/-- `ImageQualityMetrics`.  `blur` and `noise` are `NaN` in JavaScript when
their sample set is empty (an image with no interior pixels); that case is
modelled as `none`. -/
structure ImageQualityMetrics where
  brightness : ℚ
  contrast : ℚ
  blur : Option ℚ
  saturation : ℚ
  noise : Option ℚ
  deriving DecidableEq, Repr

/-- The `angle` block of `FaceQualityMetrics`. -/
structure FaceAngles where
  yaw : ℚ
  pitch : ℚ
  roll : ℚ
  deriving DecidableEq, Repr

/-- The `size` block of `FaceQualityMetrics`. -/
structure FaceSize where
  width : ℚ
  height : ℚ
  area : ℚ
  deriving DecidableEq, Repr

/-- The `position` block of `FaceQualityMetrics`. -/
structure FacePosition where
  centerX : ℚ
  centerY : ℚ
  offsetFromCenter : ℚ
  deriving DecidableEq, Repr

/-- `FaceQualityMetrics`. -/
structure FaceQualityMetrics where
  angle : FaceAngles
  size : FaceSize
  position : FacePosition
  completeness : ℚ
  symmetry : ℚ
  deriving DecidableEq, Repr

/-- `QualityValidationError`, reduced to its `code` discriminant.
`invalidImage` stands for the platform failure on a zero-area canvas
(spec taxonomy `InvalidImage`); `analysisFailed` is the wrapper code the
validator puts on any error escaping its pipeline. -/
inductive QualityValidationErrorCode where
  | analysisFailed
  | invalidImage
  | processingError
  deriving DecidableEq, Repr

/-- One RGBA pixel of the `Uint8ClampedArray` buffer (byte values). -/
structure RGBA where
  r : ℕ
  g : ℕ
  b : ℕ
  a : ℕ
  deriving DecidableEq, Repr

namespace Quality

open Mediapipe

/-- The BT.601 luminance `0.299 R + 0.587 G + 0.114 B`, inlined at each use
in the source. -/
def luminanceOf (px : RGBA) : ℚ :=
  0.299 * px.r + 0.587 * px.g + 0.114 * px.b

/-- Red channel at flat pixel index `i`, out-of-range reads giving 0 (the
source's `pixels[index] ?? 0`). -/
def redAt (pixels : List RGBA) (i : ℕ) : ℚ :=
  match pixels[i]? with
  | some px => px.r
  | none => 0

/-- Luminance at flat pixel index `i`, out-of-range channel reads giving 0. -/
def lumAt (pixels : List RGBA) (i : ℕ) : ℚ :=
  luminanceOf (pixels.getD i { r := 0, g := 0, b := 0, a := 0 })

/-- A JavaScript `a > b` where `a` may be `NaN` (modelled `none`): `false`
in that case. -/
def nanGt (a : Option ℚ) (b : ℚ) : Bool :=
  match a with
  | some q => decide (b < q)
  | none => false

/-- A JavaScript `a < b` where `a` may be `NaN` (modelled `none`): `false`
in that case. -/
def nanLt (a : Option ℚ) (b : ℚ) : Bool :=
  match a with
  | some q => decide (q < b)
  | none => false

/-- `estimateBlur`: average of `|I(x,y)-I(x+1,y)| + |I(x,y)-I(x,y+1)|` on
the red channel over interior pixels, then `1 - avg/255` clamped to
`[0, 1]`; with no interior pixel the JavaScript average is `0 / 0 = NaN`,
modelled `none`. -/
def estimateBlur (pixels : List RGBA) (width height : ℕ) : Option ℚ :=
  let edgeSum := ((List.range' 1 (height - 2)).map (fun y =>
    ((List.range' 1 (width - 2)).map (fun x =>
      let current := redAt pixels (y * width + x)
      let right := redAt pixels (y * width + x + 1)
      let down := redAt pixels ((y + 1) * width + x)
      |current - right| + |current - down|)).sum)).sum
  let edgeCount := (height - 2) * (width - 2)
  if edgeCount = 0 then none
  else
    let averageEdge := edgeSum / (edgeCount : ℚ)
    some (max 0 (min 1 (1 - averageEdge / 255)))

/-- `calculateSaturation`: mean of `(max-min)/max` over pixels (0 where max
is 0), scaled by 255. -/
def calculateSaturation (pixels : List RGBA) : ℚ :=
  let pixelCount : ℚ := pixels.length
  let totalSaturation := (pixels.map (fun px =>
    let mx := max px.r (max px.g px.b)
    let mn := min px.r (min px.g px.b)
    if mx = 0 then (0 : ℚ) else ((mx : ℚ) - (mn : ℚ)) / (mx : ℚ))).sum
  (totalSaturation / pixelCount) * 255

/-- `estimateNoise`: mean 3x3-neighborhood luminance variance over a sparse
grid (every 4th interior pixel); with no sample the JavaScript mean is
`0 / 0 = NaN`, modelled `none`. -/
def estimateNoise (pixels : List RGBA) (width height : ℕ) : Option ℚ :=
  let ys := List.range' 1 ((height + 1) / 4) 4
  let xs := List.range' 1 ((width + 1) / 4) 4
  let sampleCount := ys.length * xs.length
  let totalVariance := (ys.map (fun y =>
    (xs.map (fun x =>
      let neighbors := (List.range 3).flatMap (fun dy =>
        (List.range 3).map (fun dx =>
          lumAt pixels ((y - 1 + dy) * width + (x - 1 + dx))))
      let mean := neighbors.sum / (neighbors.length : ℚ)
      (neighbors.map (fun v => (v - mean) ^ 2)).sum / (neighbors.length : ℚ))).sum)).sum
  if sampleCount = 0 then none
  else some (totalVariance / (sampleCount : ℚ))

/-- `analyzeImageQuality` over the pixel buffer obtained from the canvas.
Modelled from the spec: the canvas draw and `getImageData` (platform APIs,
not part of this repository) are replaced by the raw RGBA buffer with its
dimensions; `getImageData` throws on a zero-area canvas, surfaced here as
the spec's `InvalidImage` failure. -/
def analyzeImageQuality (P : Prims) (pixels : List RGBA) (width height : ℕ) :
    Except QualityValidationErrorCode ImageQualityMetrics :=
  if width = 0 ∨ height = 0 then
    Except.error QualityValidationErrorCode.invalidImage
  else
    let pixelCount : ℚ := pixels.length
    let totalBrightness := (pixels.map luminanceOf).sum
    let brightness := totalBrightness / pixelCount
    let varianceSum := (pixels.map (fun px => (luminanceOf px - brightness) ^ 2)).sum
    let contrast := P.sqrt (varianceSum / pixelCount)
    let blur := estimateBlur pixels width height
    let saturation := calculateSaturation pixels
    let noise := estimateNoise pixels width height
    Except.ok { brightness, contrast, blur, saturation, noise }

/-- `QualityValidator.calculateCentroid` (x, y only). -/
def calculateCentroid (landmarks : List NormalizedLandmark) : ℚ × ℚ :=
  let sumX := (landmarks.map (fun landmark => landmark.x)).sum
  let sumY := (landmarks.map (fun landmark => landmark.y)).sum
  (sumX / landmarks.length, sumY / landmarks.length)

/-- `calculateFaceAngles`: roll from the outline corner line, yaw and pitch
as scaled displacement of outline midpoints from the image center. -/
def calculateFaceAngles (P : Prims) (faceOutline : List NormalizedLandmark) : FaceAngles :=
  match faceOutline[0]?, faceOutline[16]?, faceOutline[8]?, faceOutline[24]? with
  | some leftPoint, some rightPoint, some topPoint, some bottomPoint =>
    let roll := P.atan2 (rightPoint.y - leftPoint.y) (rightPoint.x - leftPoint.x) * P.degPerRad
    let centerX := (leftPoint.x + rightPoint.x) / 2
    let yaw := (centerX - 0.5) * 60
    let centerY := (topPoint.y + bottomPoint.y) / 2
    let pitch := (centerY - 0.5) * 40
    { yaw, pitch, roll }
  | _, _, _, _ => { yaw := 0, pitch := 0, roll := 0 }

/-- Bounding box of `calculateFaceBoundingBox`. -/
structure BoundingBox where
  left : ℚ
  top : ℚ
  width : ℚ
  height : ℚ
  deriving DecidableEq, Repr

/-- `calculateFaceBoundingBox`: axis-aligned min/max over all landmarks.
The source folds from infinite initial bounds; on the empty list (never
reached through `validateImage`, which short-circuits empty landmark lists)
this model returns a zero box where the source would yield infinities. -/
def calculateFaceBoundingBox (landmarks : List NormalizedLandmark) : BoundingBox :=
  match landmarks with
  | [] => { left := 0, top := 0, width := 0, height := 0 }
  | first :: rest =>
    let mins := rest.foldl (fun acc landmark => (min acc.1 landmark.x, min acc.2 landmark.y))
      (first.x, first.y)
    let maxs := rest.foldl (fun acc landmark => (max acc.1 landmark.x, max acc.2 landmark.y))
      (first.x, first.y)
    { left := mins.1, top := mins.2, width := maxs.1 - mins.1, height := maxs.2 - mins.2 }

/-- The key landmark indices of `calculateFaceCompleteness`: the first 4 of
each eye group, of the nose-tip group and of the chin group. -/
def keyLandmarkIndices : List ℕ :=
  LEFT_EYE.take 4 ++ RIGHT_EYE.take 4 ++ NOSE_TIP.take 4 ++ CHIN.take 4

/-- The per-index visibility test of `calculateFaceCompleteness`: the point
exists, lies in `[0, 1]` on both axes, and its visibility is absent or
strictly above 0.5. -/
def landmarkKeyVisible (landmarks : List NormalizedLandmark) (index : ℕ) : Bool :=
  match landmarks[index]? with
  | some landmark =>
    decide (0 ≤ landmark.x) && decide (landmark.x ≤ 1) &&
    decide (0 ≤ landmark.y) && decide (landmark.y ≤ 1) &&
    (match landmark.visibility with
     | none => true
     | some v => decide ((0.5 : ℚ) < v))
  | none => false

/-- `calculateFaceCompleteness`: fraction of key indices passing the
visibility test. -/
def calculateFaceCompleteness (landmarks : List NormalizedLandmark) : ℚ :=
  let visibleCount := keyLandmarkIndices.countP (landmarkKeyVisible landmarks)
  (visibleCount : ℚ) / (keyLandmarkIndices.length : ℚ)

/-- `calculateFaceSymmetry`: ratio of the eye-centroid distances to the
fixed point (0.5, 0.5); `none` when an eye group index resolves to no
point (the source would throw there). -/
def calculateFaceSymmetry (P : Prims) (landmarks : List NormalizedLandmark) : Option ℚ := do
  let leftEye ← extractLandmarksByIndices landmarks LEFT_EYE
  let rightEye ← extractLandmarksByIndices landmarks RIGHT_EYE
  let leftCentroid := calculateCentroid leftEye
  let rightCentroid := calculateCentroid rightEye
  let leftDistance := P.sqrt ((leftCentroid.1 - 0.5) ^ 2 + (leftCentroid.2 - 0.5) ^ 2)
  let rightDistance := P.sqrt ((rightCentroid.1 - 0.5) ^ 2 + (rightCentroid.2 - 0.5) ^ 2)
  pure (min leftDistance rightDistance / max leftDistance rightDistance)

/-- `analyzeFaceQuality`; `none` when a landmark-group extraction fails
(the source would throw into `validateImage`'s catch-all). -/
def analyzeFaceQuality (P : Prims) (landmarks : List NormalizedLandmark)
    (imageWidth imageHeight : ℚ) : Option FaceQualityMetrics := do
  let faceOutline ← extractLandmarksByIndices landmarks FACE_OUTLINE
  let angles := calculateFaceAngles P faceOutline
  let boundingBox := calculateFaceBoundingBox landmarks
  let _faceWidth := boundingBox.width * imageWidth
  let _faceHeight := boundingBox.height * imageHeight
  let faceArea := _faceWidth * _faceHeight
  let centerX := (boundingBox.left + boundingBox.width / 2) * imageWidth
  let centerY := (boundingBox.top + boundingBox.height / 2) * imageHeight
  let imageCenterX := imageWidth / 2
  let imageCenterY := imageHeight / 2
  let offsetFromCenter :=
    P.sqrt ((centerX - imageCenterX) ^ 2 + (centerY - imageCenterY) ^ 2) /
    P.sqrt ((imageWidth / 2) ^ 2 + (imageHeight / 2) ^ 2)
  let completeness := calculateFaceCompleteness landmarks
  let symmetry ← calculateFaceSymmetry P landmarks
  pure { angle := angles,
         size := { width := _faceWidth / imageWidth, height := _faceHeight / imageHeight,
                   area := faceArea / (imageWidth * imageHeight) },
         position := { centerX := centerX / imageWidth, centerY := centerY / imageHeight,
                       offsetFromCenter },
         completeness, symmetry }

/-- `estimateFaceCount`: 1 when any landmark is present, else 0. -/
def estimateFaceCount (landmarks : List NormalizedLandmark) : ℕ :=
  if landmarks.length > 0 then 1 else 0

/-- `validateImageQuality`: brightness band (medium), low contrast (low),
high blur (high). -/
def validateImageQuality (T : QualityThresholds)
    (imageQuality : ImageQualityMetrics) : List QualityIssue :=
  let issues : List QualityIssue := []
  let issues := if imageQuality.brightness < T.brightness.min then
      issues ++ [{ type := QualityIssueType.brightness, severity := Severity.medium,
                   message := "Image is too dark. Please ensure adequate lighting.",
                   value := some imageQuality.brightness, threshold := some T.brightness.min }]
    else if imageQuality.brightness > T.brightness.max then
      issues ++ [{ type := QualityIssueType.brightness, severity := Severity.medium,
                   message := "Image is too bright. Please reduce lighting or avoid direct light.",
                   value := some imageQuality.brightness, threshold := some T.brightness.max }]
    else issues
  let issues := if imageQuality.contrast < T.contrast.min then
      issues ++ [{ type := QualityIssueType.contrast, severity := Severity.low,
                   message := "Image has low contrast. Please ensure even lighting.",
                   value := some imageQuality.contrast, threshold := some T.contrast.min }]
    else issues
  let issues := if nanGt imageQuality.blur T.blur.max then
      issues ++ [{ type := QualityIssueType.blur, severity := Severity.high,
                   message := "Image is blurry. Please hold the camera steady and ensure focus.",
                   value := imageQuality.blur, threshold := some T.blur.max }]
    else issues
  issues

/-- `validateFaceQuality`: angle breaches (yaw/pitch medium, roll low),
size band (medium), center offset (low), completeness below 0.8 (high). -/
def validateFaceQuality (T : QualityThresholds)
    (faceQuality : FaceQualityMetrics) : List QualityIssue :=
  let issues : List QualityIssue := []
  let issues := if |faceQuality.angle.yaw| > T.faceAngle.maxYaw then
      issues ++ [{ type := QualityIssueType.face_angle, severity := Severity.medium,
                   message := "Please face the camera more directly (reduce left/right turn).",
                   value := some |faceQuality.angle.yaw|, threshold := some T.faceAngle.maxYaw }]
    else issues
  let issues := if |faceQuality.angle.pitch| > T.faceAngle.maxPitch then
      issues ++ [{ type := QualityIssueType.face_angle, severity := Severity.medium,
                   message := "Please look straight ahead (reduce up/down tilt).",
                   value := some |faceQuality.angle.pitch|, threshold := some T.faceAngle.maxPitch }]
    else issues
  let issues := if |faceQuality.angle.roll| > T.faceAngle.maxRoll then
      issues ++ [{ type := QualityIssueType.face_angle, severity := Severity.low,
                   message := "Please straighten your head (reduce tilt).",
                   value := some |faceQuality.angle.roll|, threshold := some T.faceAngle.maxRoll }]
    else issues
  let issues := if faceQuality.size.width < T.faceSize.minWidth then
      issues ++ [{ type := QualityIssueType.face_size, severity := Severity.medium,
                   message := "Please move closer to the camera for better analysis.",
                   value := some faceQuality.size.width, threshold := some T.faceSize.minWidth }]
    else if faceQuality.size.width > T.faceSize.maxWidth then
      issues ++ [{ type := QualityIssueType.face_size, severity := Severity.medium,
                   message := "Please move further from the camera.",
                   value := some faceQuality.size.width, threshold := some T.faceSize.maxWidth }]
    else issues
  let issues := if faceQuality.position.offsetFromCenter > T.facePosition.centerTolerance then
      issues ++ [{ type := QualityIssueType.face_position, severity := Severity.low,
                   message := "Please center your face in the frame.",
                   value := some faceQuality.position.offsetFromCenter,
                   threshold := some T.facePosition.centerTolerance }]
    else issues
  let issues := if faceQuality.completeness < 0.8 then
      issues ++ [{ type := QualityIssueType.partial_face, severity := Severity.high,
                   message := "Part of your face is cut off. Please ensure your entire face is visible.",
                   value := some faceQuality.completeness, threshold := some (0.8 : ℚ) }]
    else issues
  issues

/-- Confidence penalty per issue severity (30 / 15 / 5). -/
def severityPenalty : Severity → ℚ
  | Severity.high => 30
  | Severity.medium => 15
  | Severity.low => 5

/-- `calculateConfidence`: 100 minus the per-issue penalties, plus the four
good-metric bonuses, clamped to `[0, 100]`. -/
def calculateConfidence (T : QualityThresholds) (issues : List QualityIssue)
    (imageQuality : ImageQualityMetrics) (faceQuality : FaceQualityMetrics) : ℚ :=
  let confidence := issues.foldl
    (fun confidence issue => confidence - severityPenalty issue.severity) 100
  let confidence := if imageQuality.contrast > T.contrast.min * 1.5 then confidence + 5
    else confidence
  let confidence := if nanLt imageQuality.blur (T.blur.max * 0.5) then confidence + 5
    else confidence
  let confidence := if faceQuality.completeness > 0.95 then confidence + 10 else confidence
  let confidence := if faceQuality.symmetry > 0.9 then confidence + 5 else confidence
  max 0 (min 100 confidence)

/-- The fixed lighting guidance string of `createResult`. -/
def lightingGuidance : String := "💡 良好な照明環境で撮影してください（自然光が理想的）"

/-- The fixed face-angle guidance string. -/
def angleGuidance : String := "📐 カメラに対してまっすぐ顔を向けてください"

/-- The fixed face-size guidance string. -/
def sizeGuidance : String := "📏 顔全体がフレームに収まる距離を調整してください"

/-- The fixed blur guidance string. -/
def blurGuidance : String := "🎯 カメラをしっかり固定し、ピントを合わせてください"

/-- The fixed positive message. -/
def positiveMessage : String := "✅ 画像品質は分析に適しています"

/-- `createResult`: assembles the result and its recommendations — one
guidance string per issue category present, and the positive message when
no guidance was emitted and the result is valid. -/
def createResult (isValid : Bool) (issues : List QualityIssue)
    (confidence : ℚ) : QualityCheckResult :=
  let issueTypes := issues.map (fun issue => issue.type)
  let recommendations : List String := []
  let recommendations := if issueTypes.contains QualityIssueType.brightness ||
      issueTypes.contains QualityIssueType.poor_lighting then
      recommendations ++ [lightingGuidance]
    else recommendations
  let recommendations := if issueTypes.contains QualityIssueType.face_angle then
      recommendations ++ [angleGuidance]
    else recommendations
  let recommendations := if issueTypes.contains QualityIssueType.face_size then
      recommendations ++ [sizeGuidance]
    else recommendations
  let recommendations := if issueTypes.contains QualityIssueType.blur then
      recommendations ++ [blurGuidance]
    else recommendations
  let recommendations := if recommendations.length == 0 && isValid then
      recommendations ++ [positiveMessage]
    else recommendations
  { isValid, issues, confidence, recommendations }

/-- The `no_face_detected` issue pushed on an empty landmark list. -/
def noFaceIssue : QualityIssue where
  type := QualityIssueType.no_face_detected
  severity := Severity.high
  message := "No face detected in the image. Please ensure your face is clearly visible."

/-- `validateImage`: the quality gate.  Empty landmark list short-circuits;
otherwise image and face analysis run, issues are collected, and any inner
failure surfaces as the `analysisFailed` wrapper code (the source's
catch-all). -/
def validateImage (P : Prims) (T : QualityThresholds) (pixels : List RGBA)
    (width height : ℕ) (landmarks : List NormalizedLandmark) :
    Except QualityValidationErrorCode QualityCheckResult :=
  if landmarks.length = 0 then
    Except.ok (createResult false [noFaceIssue] 0)
  else
    let faceCountIssues := if estimateFaceCount landmarks > 1 then
        [{ type := QualityIssueType.multiple_faces, severity := Severity.medium,
           message := "Multiple faces detected. Please ensure only one face is visible.",
           value := some (estimateFaceCount landmarks : ℚ) : QualityIssue }]
      else []
    match analyzeImageQuality P pixels width height with
    | Except.error _ => Except.error QualityValidationErrorCode.analysisFailed
    | Except.ok imageQuality =>
      match analyzeFaceQuality P landmarks (width : ℚ) (height : ℚ) with
      | none => Except.error QualityValidationErrorCode.analysisFailed
      | some faceQuality =>
        let issues := faceCountIssues ++ validateImageQuality T imageQuality ++
          validateFaceQuality T faceQuality
        let confidence := calculateConfidence T issues imageQuality faceQuality
        let isValid := (issues.filter
          (fun issue => issue.severity == Severity.high)).length == 0
        Except.ok (createResult isValid issues confidence)

end Quality

/-- Count of issues at a given severity (the filter the validator itself
uses for its `isValid` verdict). -/
def countSeverity (issues : List QualityIssue) (s : Severity) : ℕ :=
  (issues.filter (fun issue => issue.severity == s)).length

/-! Concrete inputs used by witnesses and counterexamples. -/

/-- Degenerate primitives (everything 0); enough wherever a theorem only
needs `sqrt 0 = 0`. -/
def unitPrims : Prims where
  sqrt := fun _ => 0
  atan2 := fun _ _ => 0
  acos := fun _ => 0
  degPerRad := 0

/-- Primitives whose `sqrt` is the identity: still `sqrt 0 = 0`, but
distances between distinct points stay nonzero. -/
def idSqrtPrims : Prims where
  sqrt := id
  atan2 := fun _ _ => 0
  acos := fun _ => 0
  degPerRad := 1

/-- A landmark at the origin. -/
def originLandmark : NormalizedLandmark where
  x := 0
  y := 0

/-- A landmark at the image center. -/
def centerLandmark : NormalizedLandmark where
  x := 0.5
  y := 0.5

/-- Ten landmarks: below the 468 the feature extractor requires. -/
def tenLandmarks : List NormalizedLandmark := List.replicate 10 originLandmark

/-- A full 468-point landmark set, all points at the image center. -/
def fullLandmarks : List NormalizedLandmark := List.replicate 468 centerLandmark

/-- A full 468-point set, all points at the origin except landmark 397 (the
first right-jaw index), giving a nonzero jaw width under `idSqrtPrims`. -/
def jawWitnessLandmarks : List NormalizedLandmark :=
  (List.replicate 468 originLandmark).set 397 { x := 1, y := 0 }

/-- A mid-gray opaque pixel. -/
def grayPixel : RGBA where
  r := 128
  g := 128
  b := 128
  a := 255

/-- A uniform 3x3 mid-gray image buffer. -/
def grayImage9 : List RGBA := List.replicate 9 grayPixel

/-- A uniform 1x1 mid-gray image buffer: positive area but no interior. -/
def grayImage1 : List RGBA := [grayPixel]

/-- Landmarks covering every key completeness index (the largest is 382),
all at the image center with no visibility score. -/
def goodLandmarks383 : List NormalizedLandmark := List.replicate 383 centerLandmark

/-- A key landmark at the image center whose visibility is exactly 0.5. -/
def halfVisibleKeyLandmark : NormalizedLandmark where
  x := 0.5
  y := 0.5
  visibility := some 0.5

/-- The same set with key landmark 33 carrying visibility exactly 0.5. -/
def halfVisibleLandmarks : List NormalizedLandmark :=
  (List.replicate 383 centerLandmark).set 33 halfVisibleKeyLandmark

/-- A low-contrast issue exactly as `validateImageQuality` would emit it
(concrete `value`/`threshold` irrelevant to recommendations). -/
def lowContrastIssue : QualityIssue where
  type := QualityIssueType.contrast
  severity := Severity.low
  message := "Image has low contrast. Please ensure even lighting."

/-- Synthetic features whose unrounded region scores are 70.4, 70.4 and
70.7: the code's overall (round of the mean of unrounded scores) is 71,
while the mean of the rounded region scores 70, 70, 71 rounds to 70. -/
def overallFeatures : FacialFeatures where
  eyes :=
    { leftEye := { width := 1, height := 1, aspectRatio := 3.296, tilt := 0, landmarks := [] }
      rightEye := { width := 1, height := 1, aspectRatio := 3.296, tilt := 0, landmarks := [] }
      interPupillaryDistance := 1
      eyeSymmetry := 1 }
  nose :=
    { width := 0.874, length := 1, tipProjection := 0.7, bridgeWidth := 1,
      nostrilSymmetry := 1, landmarks := [] }
  jaw :=
    { width := 1, angle := 5918 / 45, chinProjection := 0, lowerFaceRatio := 0.9,
      asymmetry := 1, landmarks := [] }

/-! Helper lemmas. -/

/-- `round` on `ℚ` is monotone. -/
theorem round_le_round {a b : ℚ} (h : a ≤ b) : round a ≤ round b := by
  rw [round_eq, round_eq]
  exact Int.floor_le_floor (by linarith)

/-- C1: `calculateDeviation` on a proper interval `min ≤ max` is 0 on the
interval, always within `[0, 1]`, and off the interval equals the capped
normalized distance to the interval's center. -/
theorem calculateDeviation_spec (value mn mx : ℚ) (h : mn ≤ mx) :
    (mn ≤ value ∧ value ≤ mx → Metrics.calculateDeviation value (mn, mx) = 0) ∧
    0 ≤ Metrics.calculateDeviation value (mn, mx) ∧
    Metrics.calculateDeviation value (mn, mx) ≤ 1 ∧
    (¬(mn ≤ value ∧ value ≤ mx) →
      Metrics.calculateDeviation value (mn, mx) =
        min (|value - (mn + mx) / 2| / (mx - mn)) 1) := by
  have hdev : Metrics.calculateDeviation value (mn, mx) =
      if mn ≤ value ∧ value ≤ mx then 0
      else min (|value - (mn + mx) / 2| / (mx - mn)) 1 := rfl
  rw [hdev]
  by_cases hin : mn ≤ value ∧ value ≤ mx
  · rw [if_pos hin]
    exact ⟨fun _ => rfl, le_refl 0, zero_le_one, fun hc => absurd hin hc⟩
  · rw [if_neg hin]
    exact ⟨fun hc => absurd hc hin,
      le_min (div_nonneg (abs_nonneg _) (by linarith)) zero_le_one,
      min_le_right _ 1, fun _ => rfl⟩

/-- Witness for C1 at `value = 5`, interval `[-1, 1]`. -/
theorem calculateDeviation_spec_witness :
    ((-1 : ℚ) ≤ 1) ∧
    (((-1 : ℚ) ≤ 5 ∧ (5 : ℚ) ≤ 1 → Metrics.calculateDeviation 5 (-1, 1) = 0) ∧
     0 ≤ Metrics.calculateDeviation 5 (-1, 1) ∧
     Metrics.calculateDeviation 5 (-1, 1) ≤ 1 ∧
     (¬((-1 : ℚ) ≤ 5 ∧ (5 : ℚ) ≤ 1) →
       Metrics.calculateDeviation 5 (-1, 1) =
         min (|(5 : ℚ) - (-1 + 1) / 2| / (1 - -1)) 1)) :=
  ⟨by norm_num, calculateDeviation_spec 5 (-1) 1 (by norm_num)⟩

/-- C4: below 468 landmarks, `calculateFacialFeatures` fails with the
insufficient-landmarks error and yields no features. -/
theorem calculateFacialFeatures_insufficient (P : Prims)
    (landmarks : List NormalizedLandmark) (h : landmarks.length < 468) :
    Metrics.calculateFacialFeatures P landmarks =
      Except.error (MetricsCalculationError.insufficientLandmarks landmarks.length) := by
  unfold Metrics.calculateFacialFeatures
  rw [if_pos h]

/-- Witness for C4 on a 10-point landmark list. -/
theorem calculateFacialFeatures_insufficient_witness :
    tenLandmarks.length < 468 ∧
    Metrics.calculateFacialFeatures unitPrims tenLandmarks =
      Except.error (MetricsCalculationError.insufficientLandmarks tenLandmarks.length) :=
  ⟨by decide, calculateFacialFeatures_insufficient unitPrims tenLandmarks (by decide)⟩

/-- C3: on an empty landmark list the quality gate returns exactly
invalid / confidence 0 / the single high-severity no-face issue (and no
recommendations), for every image. -/
theorem validateImage_emptyLandmarks (P : Prims) (T : QualityThresholds)
    (pixels : List RGBA) (width height : ℕ) :
    Quality.validateImage P T pixels width height [] =
      Except.ok { isValid := false, issues := [Quality.noFaceIssue],
                  confidence := 0, recommendations := [] } ∧
    Quality.noFaceIssue.type = QualityIssueType.no_face_detected ∧
    Quality.noFaceIssue.severity = Severity.high :=
  ⟨rfl, rfl, rfl⟩

/-- C7: a zero-area pixel buffer makes the image-quality analyzer fail with
`invalidImage`, returning no metrics. -/
theorem analyzeImageQuality_zeroArea (P : Prims) (pixels : List RGBA)
    (width height : ℕ) (h : width = 0 ∨ height = 0) :
    Quality.analyzeImageQuality P pixels width height =
      Except.error QualityValidationErrorCode.invalidImage := by
  unfold Quality.analyzeImageQuality
  rw [if_pos h]

/-- Witness for C7 on a 0x7 buffer. -/
theorem analyzeImageQuality_zeroArea_witness :
    ((0 : ℕ) = 0 ∨ (7 : ℕ) = 0) ∧
    Quality.analyzeImageQuality unitPrims [] 0 7 =
      Except.error QualityValidationErrorCode.invalidImage :=
  ⟨Or.inl rfl, analyzeImageQuality_zeroArea unitPrims [] 0 7 (Or.inl rfl)⟩

/-- `deviationToScore` always lands in `[0, 100]`. -/
theorem deviationToScore_bounds (weightedDeviation : ℚ) :
    0 ≤ Metrics.deviationToScore weightedDeviation ∧
    Metrics.deviationToScore weightedDeviation ≤ 100 := by
  unfold Metrics.deviationToScore
  exact ⟨le_max_left 0 _, max_le (by norm_num) (min_le_left 100 _)⟩

/-- Direct evaluation rule for `round` on `ℚ`. -/
theorem round_val (q : ℚ) (z : ℤ) (h1 : (z : ℚ) ≤ q + 1 / 2)
    (h2 : q + 1 / 2 < (z : ℚ) + 1) : round q = z := by
  rw [round_eq, Int.floor_eq_iff]
  exact ⟨h1, h2⟩

/-- `round` of a rational in `[0, 100]` lands in `[0, 100]`. -/
theorem round_bounds {q : ℚ} (h0 : 0 ≤ q) (h100 : q ≤ 100) :
    0 ≤ round q ∧ round q ≤ 100 := by
  constructor
  · have h := round_le_round h0
    rwa [round_zero] at h
  · have h := round_le_round h100
    have h100r : round (100 : ℚ) = 100 := round_val 100 100 (by norm_num) (by norm_num)
    rwa [h100r] at h

/-- C2 (amended): each region score is the clamped `100 * (1 - weighted
deviation)` rounded to the nearest integer, each of the four scores is an
integer in `[0, 100]`, and `overall` is the rounded mean of the three
unrounded (clamped) region scores — not of the rounded ones. -/
theorem calculateQualityScores_spec (B : BaselineRanges) (W : WeightingFactors)
    (features : FacialFeatures) :
    (Metrics.calculateQualityScores B W features).eyes =
      round (max 0 (min 100 (100 * (1 -
        (W.eyes.aspectRatio * Metrics.calculateDeviation
            ((features.eyes.leftEye.aspectRatio + features.eyes.rightEye.aspectRatio) / 2)
            B.eyes.aspectRatio +
         W.eyes.symmetry * Metrics.calculateDeviation features.eyes.eyeSymmetry B.eyes.symmetry +
         W.eyes.tilt * Metrics.calculateDeviation
            ((|features.eyes.leftEye.tilt| + |features.eyes.rightEye.tilt|) / 2)
            B.eyes.tilt))))) ∧
    (Metrics.calculateQualityScores B W features).nose =
      round (max 0 (min 100 (100 * (1 -
        (W.nose.width * Metrics.calculateDeviation
            (features.nose.width / features.nose.bridgeWidth) B.nose.widthRatio +
         W.nose.projection * Metrics.calculateDeviation
            (|features.nose.tipProjection|) B.nose.projection +
         W.nose.symmetry * Metrics.calculateDeviation
            features.nose.nostrilSymmetry B.nose.symmetry))))) ∧
    (Metrics.calculateQualityScores B W features).jaw =
      round (max 0 (min 100 (100 * (1 -
        (W.jaw.angle * Metrics.calculateDeviation features.jaw.angle B.jaw.angle +
         W.jaw.projection * Metrics.calculateDeviation
            features.jaw.lowerFaceRatio B.jaw.chinRatio +
         W.jaw.asymmetry * Metrics.calculateDeviation
            features.jaw.asymmetry B.jaw.asymmetry))))) ∧
    (Metrics.calculateQualityScores B W features).overall =
      round ((Metrics.calculateEyeScore B W features.eyes +
        Metrics.calculateNoseScore B W features.nose +
        Metrics.calculateJawScore B W features.jaw) / 3) ∧
    (0 ≤ (Metrics.calculateQualityScores B W features).eyes ∧
      (Metrics.calculateQualityScores B W features).eyes ≤ 100) ∧
    (0 ≤ (Metrics.calculateQualityScores B W features).nose ∧
      (Metrics.calculateQualityScores B W features).nose ≤ 100) ∧
    (0 ≤ (Metrics.calculateQualityScores B W features).jaw ∧
      (Metrics.calculateQualityScores B W features).jaw ≤ 100) ∧
    (0 ≤ (Metrics.calculateQualityScores B W features).overall ∧
      (Metrics.calculateQualityScores B W features).overall ≤ 100) := by
  have he := deviationToScore_bounds (W.eyes.aspectRatio * Metrics.calculateDeviation
      ((features.eyes.leftEye.aspectRatio + features.eyes.rightEye.aspectRatio) / 2)
      B.eyes.aspectRatio +
    W.eyes.symmetry * Metrics.calculateDeviation features.eyes.eyeSymmetry B.eyes.symmetry +
    W.eyes.tilt * Metrics.calculateDeviation
      ((|features.eyes.leftEye.tilt| + |features.eyes.rightEye.tilt|) / 2) B.eyes.tilt)
  have hn := deviationToScore_bounds (W.nose.width * Metrics.calculateDeviation
      (features.nose.width / features.nose.bridgeWidth) B.nose.widthRatio +
    W.nose.projection * Metrics.calculateDeviation (|features.nose.tipProjection|)
      B.nose.projection +
    W.nose.symmetry * Metrics.calculateDeviation features.nose.nostrilSymmetry B.nose.symmetry)
  have hj := deviationToScore_bounds (W.jaw.angle * Metrics.calculateDeviation
      features.jaw.angle B.jaw.angle +
    W.jaw.projection * Metrics.calculateDeviation features.jaw.lowerFaceRatio B.jaw.chinRatio +
    W.jaw.asymmetry * Metrics.calculateDeviation features.jaw.asymmetry B.jaw.asymmetry)
  refine ⟨rfl, rfl, rfl, rfl, round_bounds he.1 he.2, round_bounds hn.1 hn.2,
    round_bounds hj.1 hj.2, round_bounds ?_ ?_⟩
  · have : (0 : ℚ) ≤ (Metrics.calculateEyeScore B W features.eyes +
        Metrics.calculateNoseScore B W features.nose +
        Metrics.calculateJawScore B W features.jaw) := by
      have e1 : 0 ≤ Metrics.calculateEyeScore B W features.eyes := he.1
      have e2 : 0 ≤ Metrics.calculateNoseScore B W features.nose := hn.1
      have e3 : 0 ≤ Metrics.calculateJawScore B W features.jaw := hj.1
      linarith
    linarith
  · have e1 : Metrics.calculateEyeScore B W features.eyes ≤ 100 := he.2
    have e2 : Metrics.calculateNoseScore B W features.nose ≤ 100 := hn.2
    have e3 : Metrics.calculateJawScore B W features.jaw ≤ 100 := hj.2
    linarith

/-- Counterexample to C2 as stated: on `overallFeatures` the computed
`overall` is 71, while the rounded mean of the three rounded region scores
(70, 70 and 71) is 70. -/
theorem calculateQualityScores_overall_counterexample :
    (Metrics.calculateQualityScores DEFAULT_BASELINE_RANGES DEFAULT_WEIGHTING_FACTORS
      overallFeatures).overall = 71 ∧
    round ((((Metrics.calculateQualityScores DEFAULT_BASELINE_RANGES
          DEFAULT_WEIGHTING_FACTORS overallFeatures).eyes : ℚ) +
        ((Metrics.calculateQualityScores DEFAULT_BASELINE_RANGES
          DEFAULT_WEIGHTING_FACTORS overallFeatures).nose : ℚ) +
        ((Metrics.calculateQualityScores DEFAULT_BASELINE_RANGES
          DEFAULT_WEIGHTING_FACTORS overallFeatures).jaw : ℚ)) / 3) = 70 := by
  have he : Metrics.calculateEyeScore DEFAULT_BASELINE_RANGES DEFAULT_WEIGHTING_FACTORS
      overallFeatures.eyes = 352 / 5 := by
    norm_num [Metrics.calculateEyeScore, Metrics.calculateDeviation, Metrics.deviationToScore,
      DEFAULT_BASELINE_RANGES, DEFAULT_WEIGHTING_FACTORS, overallFeatures, abs_of_nonneg,
      min_def, max_def]
  have hn : Metrics.calculateNoseScore DEFAULT_BASELINE_RANGES DEFAULT_WEIGHTING_FACTORS
      overallFeatures.nose = 352 / 5 := by
    norm_num [Metrics.calculateNoseScore, Metrics.calculateDeviation, Metrics.deviationToScore,
      DEFAULT_BASELINE_RANGES, DEFAULT_WEIGHTING_FACTORS, overallFeatures, abs_of_nonneg,
      min_def, max_def]
  have hj : Metrics.calculateJawScore DEFAULT_BASELINE_RANGES DEFAULT_WEIGHTING_FACTORS
      overallFeatures.jaw = 707 / 10 := by
    norm_num [Metrics.calculateJawScore, Metrics.calculateDeviation, Metrics.deviationToScore,
      DEFAULT_BASELINE_RANGES, DEFAULT_WEIGHTING_FACTORS, overallFeatures, abs_of_nonneg,
      min_def, max_def]
  have hqs : Metrics.calculateQualityScores DEFAULT_BASELINE_RANGES DEFAULT_WEIGHTING_FACTORS
      overallFeatures =
      { eyes := round (352 / 5 : ℚ), nose := round (352 / 5 : ℚ),
        jaw := round (707 / 10 : ℚ), overall := round (141 / 2 : ℚ) } := by
    unfold Metrics.calculateQualityScores
    rw [he, hn, hj]
    norm_num
  have h704 : round (352 / 5 : ℚ) = 70 := round_val _ 70 (by norm_num) (by norm_num)
  have h707 : round (707 / 10 : ℚ) = 71 := round_val _ 71 (by norm_num) (by norm_num)
  have h705 : round (141 / 2 : ℚ) = 71 := round_val _ 71 (by norm_num) (by norm_num)
  rw [hqs]
  refine ⟨h705, ?_⟩
  rw [h704, h707]
  have harg : (((70 : ℤ) : ℚ) + ((70 : ℤ) : ℚ) + ((71 : ℤ) : ℚ)) / 3 = 211 / 3 := by norm_num
  rw [harg]
  exact round_val _ 70 (by norm_num) (by norm_num)

/-- Position `k` of a successful extraction is the landmark at the index
held at position `k` of the index list. -/
theorem extract_getElem {landmarks : List NormalizedLandmark} {indices : List ℕ}
    {out : List NormalizedLandmark}
    (h : Mediapipe.extractLandmarksByIndices landmarks indices = some out)
    (k i : ℕ) (hk : indices[k]? = some i) : out[k]? = landmarks[i]? := by
  induction indices generalizing out k with
  | nil => simp at hk
  | cons idx rest ih =>
    simp only [Mediapipe.extractLandmarksByIndices, List.mapM_cons, Option.bind_eq_bind',
      Option.bind_eq_some, Option.pure_def, Option.some.injEq] at h
    obtain ⟨a, ha, bs, hbs, hout⟩ := h
    cases k with
    | zero =>
      simp only [List.getElem?_cons_zero, Option.some.injEq] at hk
      subst hk
      rw [← hout]
      simpa using ha.symm
    | succ k =>
      simp only [List.getElem?_cons_succ] at hk
      rw [← hout]
      simpa using ih hbs k hk

/-- `calculateDeviation` is nonnegative on any proper interval. -/
theorem calculateDeviation_nonneg (value mn mx : ℚ) (h : mn ≤ mx) :
    0 ≤ Metrics.calculateDeviation value (mn, mx) := by
  have hdev : Metrics.calculateDeviation value (mn, mx) =
      if mn ≤ value ∧ value ≤ mx then 0
      else min (|value - (mn + mx) / 2| / (mx - mn)) 1 := rfl
  rw [hdev]
  by_cases hin : mn ≤ value ∧ value ≤ mx
  · rw [if_pos hin]
  · rw [if_neg hin]
    exact le_min (div_nonneg (abs_nonneg _) (by linarith)) zero_le_one

/-- `deviationToScore` of a weighted deviation at least 0.3 is at most 70. -/
theorem deviationToScore_le_seventy (weightedDeviation : ℚ)
    (h : 3 / 10 ≤ weightedDeviation) :
    Metrics.deviationToScore weightedDeviation ≤ 70 := by
  unfold Metrics.deviationToScore
  have hs : 100 * (1 - weightedDeviation) ≤ 70 := by linarith
  exact max_le (by norm_num) (le_trans (min_le_right _ _) hs)

/-- The default chin-ratio deviation of a zero lower-face ratio is exactly
the cap 1. -/
theorem calculateDeviation_zero_chinRatio :
    Metrics.calculateDeviation 0 DEFAULT_BASELINE_RANGES.jaw.chinRatio = 1 := by
  have hdev : Metrics.calculateDeviation 0 DEFAULT_BASELINE_RANGES.jaw.chinRatio =
      if (0.85 : ℚ) ≤ 0 ∧ (0 : ℚ) ≤ 0.95 then 0
      else min (|(0 : ℚ) - (0.85 + 0.95) / 2| / (0.95 - 0.85)) 1 := rfl
  rw [hdev, if_neg (by norm_num)]
  have habs : |(0 : ℚ) - (0.85 + 0.95) / 2| = 9 / 10 := by
    rw [abs_of_nonpos (by norm_num)]
    norm_num
  rw [habs]
  norm_num [min_def]

/-- C10: whenever feature extraction succeeds (so 468 or more landmarks)
and the jaw width is nonzero, `jaw.lowerFaceRatio` is exactly 0 — positions
4 and 12 of the chin index list both name landmark 9, so the chin width is
a point's distance to itself — hence the default chin-ratio deviation is 1
and the rounded jaw score is at most 70. -/
theorem jaw_chin_degenerate (P : Prims) (landmarks : List NormalizedLandmark)
    (f : FacialFeatures) (hsqrt : P.sqrt 0 = 0)
    (hok : Metrics.calculateFacialFeatures P landmarks = Except.ok f)
    (hw : f.jaw.width ≠ 0) :
    f.jaw.lowerFaceRatio = 0 ∧
    Metrics.calculateDeviation f.jaw.lowerFaceRatio DEFAULT_BASELINE_RANGES.jaw.chinRatio = 1 ∧
    (Metrics.calculateQualityScores DEFAULT_BASELINE_RANGES DEFAULT_WEIGHTING_FACTORS f).jaw
      ≤ 70 := by
  by_cases hlen : landmarks.length < 468
  · rw [Metrics.calculateFacialFeatures, if_pos hlen] at hok
    exact absurd hok (by simp)
  rw [Metrics.calculateFacialFeatures, if_neg hlen] at hok
  set doblock := (do
      let eyes ← Metrics.calculateEyeMetrics P landmarks
      let nose ← Metrics.calculateNoseMetrics P landmarks
      let jaw ← Metrics.calculateJawMetrics P landmarks
      pure { eyes, nose, jaw } : Option FacialFeatures) with hdo
  cases hdob : doblock with
  | none => rw [hdob] at hok; exact absurd hok (by simp)
  | some features =>
    rw [hdob] at hok
    have hf : features = f := by
      simpa using hok
    subst hf
    rw [hdo] at hdob
    simp only [Option.bind_eq_bind', Option.bind_eq_some, Option.pure_def, Option.some.injEq] at hdob
    obtain ⟨eyes, _, nose, _, jaw, hjaw, hfe⟩ := hdob
    have hfjaw : features.jaw = jaw := by rw [← hfe]
    rw [Metrics.calculateJawMetrics] at hjaw
    simp only [Option.bind_eq_bind', Option.bind_eq_some, Option.pure_def, Option.some.injEq] at hjaw
    obtain ⟨lj, hlj, rj, hrj, cl, hcl, ljp, hljp, rjp, hrjp, cp, hcp, cw, hcw, hj⟩ := hjaw
    rw [Metrics.calculateChinWidth] at hcw
    simp only [Option.bind_eq_bind', Option.bind_eq_some, Option.pure_def, Option.some.injEq] at hcw
    obtain ⟨leftChin, hlc, rightChin, hrc, hcwv⟩ := hcw
    have h4 : cl[4]? = landmarks[9]? :=
      extract_getElem hcl 4 9 (by decide)
    have h12 : cl[12]? = landmarks[9]? :=
      extract_getElem hcl 12 9 (by decide)
    have hsame : leftChin = rightChin := by
      have e1 : some leftChin = landmarks[9]? := by rw [← hlc, h4]
      have e2 : some rightChin = landmarks[9]? := by rw [← hrc, h12]
      have := e1.trans e2.symm
      exact Option.some.injEq _ _ ▸ (by simpa using this)
    have hcw0 : cw = 0 := by
      rw [← hcwv, hsame, Mediapipe.calculateDistance]
      simpa using hsqrt
    have hratio : features.jaw.lowerFaceRatio = 0 := by
      rw [hfjaw, ← hj]
      simp only [hcw0]
      exact zero_div _
    refine ⟨hratio, ?_, ?_⟩
    · rw [hratio]
      exact calculateDeviation_zero_chinRatio
    · have hdev1 : Metrics.calculateDeviation features.jaw.lowerFaceRatio
          DEFAULT_BASELINE_RANGES.jaw.chinRatio = 1 := by
        rw [hratio]
        exact calculateDeviation_zero_chinRatio
      have hangle : 0 ≤ Metrics.calculateDeviation features.jaw.angle
          DEFAULT_BASELINE_RANGES.jaw.angle :=
        calculateDeviation_nonneg _ 120 130 (by norm_num)
      have hasym : 0 ≤ Metrics.calculateDeviation features.jaw.asymmetry
          DEFAULT_BASELINE_RANGES.jaw.asymmetry :=
        calculateDeviation_nonneg _ 0.95 1.05 (by norm_num)
      have hscore : Metrics.calculateJawScore DEFAULT_BASELINE_RANGES
          DEFAULT_WEIGHTING_FACTORS features.jaw ≤ 70 := by
        rw [Metrics.calculateJawScore, hdev1]
        refine deviationToScore_le_seventy _ ?_
        have hwts : DEFAULT_WEIGHTING_FACTORS.jaw.angle = 0.45 ∧
            DEFAULT_WEIGHTING_FACTORS.jaw.projection = 0.3 ∧
            DEFAULT_WEIGHTING_FACTORS.jaw.asymmetry = 0.25 := ⟨rfl, rfl, rfl⟩
        rw [hwts.1, hwts.2.1, hwts.2.2]
        nlinarith [hangle, hasym]
      have hjr : (Metrics.calculateQualityScores DEFAULT_BASELINE_RANGES
          DEFAULT_WEIGHTING_FACTORS features).jaw =
          round (Metrics.calculateJawScore DEFAULT_BASELINE_RANGES
            DEFAULT_WEIGHTING_FACTORS features.jaw) := rfl
      rw [hjr]
      have h70 : round (70 : ℚ) = 70 := round_val 70 70 (by norm_num) (by norm_num)
      calc round (Metrics.calculateJawScore DEFAULT_BASELINE_RANGES
            DEFAULT_WEIGHTING_FACTORS features.jaw) ≤ round (70 : ℚ) :=
            round_le_round hscore
        _ = 70 := h70

/-- `createResult` passes the issue list through unchanged. -/
theorem createResult_issues (isValid : Bool) (issues : List QualityIssue) (confidence : ℚ) :
    (Quality.createResult isValid issues confidence).issues = issues := rfl

/-- `createResult` passes the confidence through unchanged. -/
theorem createResult_confidence (isValid : Bool) (issues : List QualityIssue) (confidence : ℚ) :
    (Quality.createResult isValid issues confidence).confidence = confidence := rfl

/-- `createResult` passes the verdict through unchanged. -/
theorem createResult_isValid (isValid : Bool) (issues : List QualityIssue) (confidence : ℚ) :
    (Quality.createResult isValid issues confidence).isValid = isValid := rfl

/-- The penalty fold subtracts 30/15/5 per high/medium/low issue. -/
theorem foldl_penalty (issues : List QualityIssue) (a : ℚ) :
    issues.foldl (fun confidence issue => confidence - Quality.severityPenalty issue.severity) a =
      a - (30 * (countSeverity issues Severity.high : ℚ) +
           15 * (countSeverity issues Severity.medium : ℚ) +
           5 * (countSeverity issues Severity.low : ℚ)) := by
  induction issues generalizing a with
  | nil => simp [countSeverity]
  | cons issue rest ih =>
    rw [List.foldl_cons, ih]
    cases hsev : issue.severity <;>
      simp [countSeverity, List.filter_cons, hsev, Quality.severityPenalty] <;> ring

/-- Pulling the bonus out of a conditional increment. -/
theorem ite_add_bonus {c : Prop} [Decidable c] (e b : ℚ) :
    (if c then e + b else e) = e + (if c then b else 0) := by
  split <;> simp

/-- C5: on a nonempty landmark list that validates without error, the
confidence is the clamp to `[0, 100]` of 100 minus 30/15/5 per
high/medium/low issue plus the four good-metric bonuses, and `isValid`
holds exactly when no issue is high-severity. -/
theorem validateImage_confidence (P : Prims) (T : QualityThresholds) (pixels : List RGBA)
    (width height : ℕ) (landmarks : List NormalizedLandmark) (r : QualityCheckResult)
    (hne : landmarks ≠ [])
    (hok : Quality.validateImage P T pixels width height landmarks = Except.ok r) :
    (∃ imageQuality faceQuality,
      Quality.analyzeImageQuality P pixels width height = Except.ok imageQuality ∧
      Quality.analyzeFaceQuality P landmarks (width : ℚ) (height : ℚ) = some faceQuality ∧
      r.confidence = max 0 (min 100 (
        100 - (30 * (countSeverity r.issues Severity.high : ℚ) +
               15 * (countSeverity r.issues Severity.medium : ℚ) +
               5 * (countSeverity r.issues Severity.low : ℚ)) +
        ((if imageQuality.contrast > T.contrast.min * 1.5 then (5 : ℚ) else 0) +
         (if Quality.nanLt imageQuality.blur (T.blur.max * 0.5) then (5 : ℚ) else 0) +
         (if faceQuality.completeness > 0.95 then (10 : ℚ) else 0) +
         (if faceQuality.symmetry > 0.9 then (5 : ℚ) else 0))))) ∧
    0 ≤ r.confidence ∧ r.confidence ≤ 100 ∧
    (r.isValid = true ↔ countSeverity r.issues Severity.high = 0) := by
  have hlen : ¬(landmarks.length = 0) := by simpa using hne
  have hfc : ¬(Quality.estimateFaceCount landmarks > 1) := by
    unfold Quality.estimateFaceCount
    split <;> omega
  cases hiq : Quality.analyzeImageQuality P pixels width height with
  | error e =>
    rw [Quality.validateImage, if_neg hlen, hiq] at hok
    exact absurd hok (by simp)
  | ok imageQuality =>
    cases hfq : Quality.analyzeFaceQuality P landmarks (width : ℚ) (height : ℚ) with
    | none =>
      rw [Quality.validateImage, if_neg hlen, hiq, hfq] at hok
      exact absurd hok (by simp)
    | some faceQuality =>
      rw [Quality.validateImage, if_neg hlen, hiq, hfq, if_neg hfc] at hok
      have hr : Quality.createResult
          ((([] ++ Quality.validateImageQuality T imageQuality ++
              Quality.validateFaceQuality T faceQuality).filter
            (fun (issue : QualityIssue) => issue.severity == Severity.high)).length == 0)
          ([] ++ Quality.validateImageQuality T imageQuality ++
            Quality.validateFaceQuality T faceQuality)
          (Quality.calculateConfidence T
            ([] ++ Quality.validateImageQuality T imageQuality ++
              Quality.validateFaceQuality T faceQuality) imageQuality faceQuality) = r := by
        simpa using hok
      set issues := [] ++ Quality.validateImageQuality T imageQuality ++
        Quality.validateFaceQuality T faceQuality with hissues
      have hri : r.issues = issues := by rw [← hr, createResult_issues]
      have hrc : r.confidence =
          Quality.calculateConfidence T issues imageQuality faceQuality := by
        rw [← hr, createResult_confidence]
      have hrv : r.isValid =
          ((issues.filter (fun (issue : QualityIssue) =>
            issue.severity == Severity.high)).length == 0) := by
        rw [← hr, createResult_isValid]
      have hconf : Quality.calculateConfidence T issues imageQuality faceQuality =
          max 0 (min 100 (
            100 - (30 * (countSeverity issues Severity.high : ℚ) +
                   15 * (countSeverity issues Severity.medium : ℚ) +
                   5 * (countSeverity issues Severity.low : ℚ)) +
            ((if imageQuality.contrast > T.contrast.min * 1.5 then (5 : ℚ) else 0) +
             (if Quality.nanLt imageQuality.blur (T.blur.max * 0.5) then (5 : ℚ) else 0) +
             (if faceQuality.completeness > 0.95 then (10 : ℚ) else 0) +
             (if faceQuality.symmetry > 0.9 then (5 : ℚ) else 0)))) := by
        rw [Quality.calculateConfidence]
        rw [foldl_penalty]
        rw [ite_add_bonus, ite_add_bonus, ite_add_bonus, ite_add_bonus]
        have harr : ∀ a i1 i2 i3 i4 : ℚ,
            a + i1 + i2 + i3 + i4 = a + (i1 + i2 + i3 + i4) := by intros; ring
        rw [harr]
      refine ⟨⟨imageQuality, faceQuality, rfl, rfl, ?_⟩, ?_, ?_, ?_⟩
      · rw [hrc, hri, hconf]
      · rw [hrc, hconf]
        exact le_max_left 0 _
      · rw [hrc, hconf]
        exact max_le (by norm_num) (min_le_left 100 _)
      · rw [hrv, hri]
        unfold countSeverity
        exact ⟨fun h => by simpa using h, fun h => by simpa using h⟩

/-- Witness for C5: a 3x3 gray image with a full centered landmark set runs
the gate to completion. -/
theorem validateImage_confidence_witness :
    fullLandmarks ≠ [] ∧
    ∃ r, Quality.validateImage unitPrims DEFAULT_QUALITY_THRESHOLDS grayImage9 3 3
        fullLandmarks = Except.ok r ∧
      0 ≤ r.confidence ∧ r.confidence ≤ 100 ∧
      (r.isValid = true ↔ countSeverity r.issues Severity.high = 0) := by
  have hne : fullLandmarks ≠ [] := by with_unfolding_all decide
  refine ⟨hne, _, by with_unfolding_all rfl, ?_⟩
  have h := validateImage_confidence unitPrims DEFAULT_QUALITY_THRESHOLDS grayImage9 3 3
    fullLandmarks _ hne (by with_unfolding_all rfl)
  exact ⟨h.2.1, h.2.2.1, h.2.2.2⟩

/-- C6 (amended): the recommendations hold exactly one guidance string per
issue *category* present — brightness/poor-lighting (which share one
string), face angle, face size, blur — and the positive message appears iff
the result is valid and none of those four guidance categories is present
(other issue types, such as contrast, do not block the positive message). -/
theorem createResult_recommendations (isValid : Bool) (issues : List QualityIssue)
    (confidence : ℚ) :
    ((Quality.createResult isValid issues confidence).recommendations.count
        Quality.lightingGuidance =
      if (issues.map (fun issue => issue.type)).contains QualityIssueType.brightness ||
          (issues.map (fun issue => issue.type)).contains QualityIssueType.poor_lighting
        then 1 else 0) ∧
    ((Quality.createResult isValid issues confidence).recommendations.count
        Quality.angleGuidance =
      if (issues.map (fun issue => issue.type)).contains QualityIssueType.face_angle
        then 1 else 0) ∧
    ((Quality.createResult isValid issues confidence).recommendations.count
        Quality.sizeGuidance =
      if (issues.map (fun issue => issue.type)).contains QualityIssueType.face_size
        then 1 else 0) ∧
    ((Quality.createResult isValid issues confidence).recommendations.count
        Quality.blurGuidance =
      if (issues.map (fun issue => issue.type)).contains QualityIssueType.blur
        then 1 else 0) ∧
    (Quality.positiveMessage ∈ (Quality.createResult isValid issues confidence).recommendations ↔
      (isValid = true ∧
       ((issues.map (fun issue => issue.type)).contains QualityIssueType.brightness ||
        (issues.map (fun issue => issue.type)).contains QualityIssueType.poor_lighting) = false ∧
       (issues.map (fun issue => issue.type)).contains QualityIssueType.face_angle = false ∧
       (issues.map (fun issue => issue.type)).contains QualityIssueType.face_size = false ∧
       (issues.map (fun issue => issue.type)).contains QualityIssueType.blur = false)) := by
  simp only [Quality.createResult]
  cases hb : ((issues.map (fun issue => issue.type)).contains QualityIssueType.brightness ||
      (issues.map (fun issue => issue.type)).contains QualityIssueType.poor_lighting) <;>
  cases ha : (issues.map (fun issue => issue.type)).contains QualityIssueType.face_angle <;>
  cases hs : (issues.map (fun issue => issue.type)).contains QualityIssueType.face_size <;>
  cases hbl : (issues.map (fun issue => issue.type)).contains QualityIssueType.blur <;>
  cases isValid <;>
    simp [hb, ha, hs, hbl, List.count_cons, List.count_nil, Quality.lightingGuidance,
      Quality.angleGuidance, Quality.sizeGuidance, Quality.blurGuidance,
      Quality.positiveMessage]

/-- Counterexample to C6 as stated: a valid result whose only issue is the
low-contrast type still gets the positive message although its issue list
is not empty. -/
theorem createResult_positive_counterexample :
    (Quality.createResult true [lowContrastIssue] 80).recommendations =
      [Quality.positiveMessage] ∧
    ([lowContrastIssue] : List QualityIssue) ≠ [] ∧
    (Quality.createResult true [lowContrastIssue] 80).isValid = true := by
  refine ⟨?_, by simp, rfl⟩
  with_unfolding_all rfl

/-- Row-major flat index bound. -/
theorem flat_index_lt {w h y x : ℕ} (hy : y < h) (hx : x < w) : y * w + x < h * w :=
  calc y * w + x < y * w + w := by omega
    _ = (y + 1) * w := by ring
    _ ≤ h * w := Nat.mul_le_mul_right w hy

/-- Red channel of a uniform buffer at any in-range flat index. -/
theorem redAt_replicate (c : RGBA) (N i : ℕ) (h : i < N) :
    Quality.redAt (List.replicate N c) i = (c.r : ℚ) := by
  unfold Quality.redAt
  rw [List.getElem?_eq_getElem (by simpa using h)]
  simp

/-- `estimateBlur` of a uniform buffer with a nonempty interior is exactly
1 (no edges at all). -/
theorem estimateBlur_uniform (c : RGBA) (width height : ℕ)
    (hw : 3 ≤ width) (hh : 3 ≤ height) :
    Quality.estimateBlur (List.replicate (width * height) c) width height = some 1 := by
  unfold Quality.estimateBlur
  have hcount : ¬((height - 2) * (width - 2) = 0) :=
    Nat.mul_ne_zero (by omega) (by omega)
  rw [if_neg hcount]
  have hsum : ((List.range' 1 (height - 2)).map (fun y =>
      ((List.range' 1 (width - 2)).map (fun x =>
        let current := Quality.redAt (List.replicate (width * height) c) (y * width + x)
        let right := Quality.redAt (List.replicate (width * height) c) (y * width + x + 1)
        let down := Quality.redAt (List.replicate (width * height) c) ((y + 1) * width + x)
        |current - right| + |current - down|)).sum)).sum = 0 := by
    apply List.sum_eq_zero
    intro s hs
    simp only [List.mem_map] at hs
    obtain ⟨y, hy, rfl⟩ := hs
    apply List.sum_eq_zero
    intro t ht
    simp only [List.mem_map] at ht
    obtain ⟨x, hx, rfl⟩ := ht
    rw [List.mem_range'_1] at hy
    rw [List.mem_range'_1] at hx
    have hyh : y + 1 < height := by omega
    have hxw : x + 1 < width := by omega
    have h1 : y * width + x < width * height := by
      rw [Nat.mul_comm width height]
      exact flat_index_lt (w := width) (h := height) (y := y) (x := x) (by omega) (by omega)
    have h2 : y * width + x + 1 < width * height := by
      rw [Nat.mul_comm width height]
      have := flat_index_lt (w := width) (h := height) (y := y) (x := x + 1)
        (by omega) hxw
      omega
    have h3 : (y + 1) * width + x < width * height := by
      rw [Nat.mul_comm width height]
      exact flat_index_lt (w := width) (h := height) (y := y + 1) (x := x) hyh (by omega)
    simp only [redAt_replicate c (width * height) _ h1,
      redAt_replicate c (width * height) _ h2,
      redAt_replicate c (width * height) _ h3]
    simp
  rw [hsum]
  norm_num

/-- C8 (amended): a uniform image of size at least 3x3 (so the edge
detector's interior is nonempty) yields contrast exactly 0 and blur exactly
1; on smaller positive-area images the source's blur average is `0 / 0`
(`NaN`, modelled `none`). -/
theorem analyzeImageQuality_uniform (P : Prims) (c : RGBA) (width height : ℕ)
    (hsqrt : P.sqrt 0 = 0) (hw : 3 ≤ width) (hh : 3 ≤ height) :
    Except.map (fun m => (m.contrast, m.blur))
      (Quality.analyzeImageQuality P (List.replicate (width * height) c) width height) =
      Except.ok ((0 : ℚ), some (1 : ℚ)) := by
  have hpos : ¬(width = 0 ∨ height = 0) := by omega
  have hNne : (((width * height : ℕ) : ℚ)) ≠ 0 := by
    exact_mod_cast Nat.mul_ne_zero (by omega) (by omega)
  have hbright : ((List.replicate (width * height) c).map Quality.luminanceOf).sum /
      (((List.replicate (width * height) c).length : ℕ) : ℚ) = Quality.luminanceOf c := by
    rw [List.map_replicate, List.sum_replicate, List.length_replicate, nsmul_eq_mul]
    exact mul_div_cancel_left₀ _ hNne
  simp only [Quality.analyzeImageQuality]
  rw [if_neg hpos]
  simp only [Except.map]
  rw [hbright]
  have hvar : ((List.replicate (width * height) c).map
      (fun px => (Quality.luminanceOf px - Quality.luminanceOf c) ^ 2)).sum = 0 := by
    rw [List.map_replicate]
    simp
  rw [hvar, zero_div, hsqrt, estimateBlur_uniform c width height hw hh]

/-- Witness for C8 on a 3x3 uniform gray image. -/
theorem analyzeImageQuality_uniform_witness :
    unitPrims.sqrt 0 = 0 ∧ (3 : ℕ) ≤ 3 ∧
    Except.map (fun m => (m.contrast, m.blur))
      (Quality.analyzeImageQuality unitPrims (List.replicate (3 * 3) grayPixel) 3 3) =
      Except.ok ((0 : ℚ), some (1 : ℚ)) :=
  ⟨rfl, le_refl 3, analyzeImageQuality_uniform unitPrims grayPixel 3 3 rfl (le_refl 3) (le_refl 3)⟩

/-- Counterexample to C8 as stated: a uniform 1x1 image has positive area,
but its blur is the `NaN` of `0 / 0` (no interior pixels), not 1. -/
theorem analyzeImageQuality_onePixel_counterexample :
    Except.map (fun m => (m.contrast, m.blur))
      (Quality.analyzeImageQuality unitPrims grayImage1 1 1) =
      Except.ok ((0 : ℚ), (none : Option ℚ)) ∧
    (none : Option ℚ) ≠ some 1 := by
  constructor
  · with_unfolding_all rfl
  · simp

/-- C9 (amended): completeness is exactly 1 whenever every key landmark
index resolves to a point inside `[0, 1]` on both axes whose visibility is
absent or strictly greater than 0.5 (the source compares with strict
`> 0.5`, not `≥`). -/
theorem calculateFaceCompleteness_complete (landmarks : List NormalizedLandmark)
    (h : ∀ index ∈ Quality.keyLandmarkIndices, ∃ landmark,
      landmarks[index]? = some landmark ∧
      0 ≤ landmark.x ∧ landmark.x ≤ 1 ∧ 0 ≤ landmark.y ∧ landmark.y ≤ 1 ∧
      (landmark.visibility = none ∨
        ∃ v, landmark.visibility = some v ∧ (0.5 : ℚ) < v)) :
    Quality.calculateFaceCompleteness landmarks = 1 := by
  have hall : ∀ index ∈ Quality.keyLandmarkIndices,
      Quality.landmarkKeyVisible landmarks index = true := by
    intro i hi
    obtain ⟨lm, hlm, hx0, hx1, hy0, hy1, hvis⟩ := h i hi
    unfold Quality.landmarkKeyVisible
    rw [hlm]
    simp only [Bool.and_eq_true, decide_eq_true_eq]
    refine ⟨⟨⟨⟨hx0, hx1⟩, hy0⟩, hy1⟩, ?_⟩
    cases hvis with
    | inl hnone => rw [hnone]
    | inr hsome =>
      obtain ⟨v, hv, hlt⟩ := hsome
      rw [hv]
      simpa using hlt
  have hcount : Quality.keyLandmarkIndices.countP
      (Quality.landmarkKeyVisible landmarks) = Quality.keyLandmarkIndices.length :=
    List.countP_eq_length.mpr hall
  unfold Quality.calculateFaceCompleteness
  rw [hcount]
  have hlen : Quality.keyLandmarkIndices.length = 16 := rfl
  rw [hlen]
  norm_num

/-- Witness for C9 on a full set of centered landmarks with no visibility
scores. -/
theorem calculateFaceCompleteness_complete_witness :
    (∀ index ∈ Quality.keyLandmarkIndices, ∃ landmark,
      goodLandmarks383[index]? = some landmark ∧
      0 ≤ landmark.x ∧ landmark.x ≤ 1 ∧ 0 ≤ landmark.y ∧ landmark.y ≤ 1 ∧
      (landmark.visibility = none ∨
        ∃ v, landmark.visibility = some v ∧ (0.5 : ℚ) < v)) ∧
    Quality.calculateFaceCompleteness goodLandmarks383 = 1 := by
  have h : ∀ index ∈ Quality.keyLandmarkIndices, ∃ landmark,
      goodLandmarks383[index]? = some landmark ∧
      0 ≤ landmark.x ∧ landmark.x ≤ 1 ∧ 0 ≤ landmark.y ∧ landmark.y ≤ 1 ∧
      (landmark.visibility = none ∨
        ∃ v, landmark.visibility = some v ∧ (0.5 : ℚ) < v) := by
    intro i hi
    have hi' : i ∈ ([33, 7, 163, 144, 362, 382, 381, 380, 1, 2, 5, 4,
        18, 175, 199, 200] : List ℕ) := hi
    fin_cases hi' <;>
      exact ⟨centerLandmark, by with_unfolding_all rfl, by norm_num [centerLandmark],
        by norm_num [centerLandmark], by norm_num [centerLandmark],
        by norm_num [centerLandmark], Or.inl rfl⟩
  exact ⟨h, calculateFaceCompleteness_complete goodLandmarks383 h⟩

/-- Counterexample to C9 as stated: with key landmark 33 at visibility
exactly 0.5 every key index satisfies the claim's "at least 0.5" condition,
yet completeness is 15/16, not 1. -/
theorem calculateFaceCompleteness_halfVisibility_counterexample :
    (∀ index ∈ Quality.keyLandmarkIndices, ∃ landmark,
      halfVisibleLandmarks[index]? = some landmark ∧
      0 ≤ landmark.x ∧ landmark.x ≤ 1 ∧ 0 ≤ landmark.y ∧ landmark.y ≤ 1 ∧
      (landmark.visibility = none ∨
        ∃ v, landmark.visibility = some v ∧ (0.5 : ℚ) ≤ v)) ∧
    Quality.calculateFaceCompleteness halfVisibleLandmarks = 15 / 16 ∧
    (15 / 16 : ℚ) ≠ 1 := by
  refine ⟨?_, ?_, by norm_num⟩
  · intro i hi
    have hi' : i ∈ ([33, 7, 163, 144, 362, 382, 381, 380, 1, 2, 5, 4,
        18, 175, 199, 200] : List ℕ) := hi
    fin_cases hi' <;>
      first
      | exact ⟨halfVisibleKeyLandmark, by with_unfolding_all rfl,
          by norm_num [halfVisibleKeyLandmark], by norm_num [halfVisibleKeyLandmark],
          by norm_num [halfVisibleKeyLandmark], by norm_num [halfVisibleKeyLandmark],
          Or.inr ⟨0.5, rfl, by norm_num⟩⟩
      | exact ⟨centerLandmark, by with_unfolding_all rfl, by norm_num [centerLandmark],
          by norm_num [centerLandmark], by norm_num [centerLandmark],
          by norm_num [centerLandmark], Or.inl rfl⟩
  · with_unfolding_all rfl

/-- Witness for C10 on a concrete 468-point landmark set with a nonzero jaw
width under identity-sqrt primitives. -/
theorem jaw_chin_degenerate_witness :
    idSqrtPrims.sqrt 0 = 0 ∧
    ∃ f, Metrics.calculateFacialFeatures idSqrtPrims jawWitnessLandmarks = Except.ok f ∧
      f.jaw.width ≠ 0 ∧
      (f.jaw.lowerFaceRatio = 0 ∧
       Metrics.calculateDeviation f.jaw.lowerFaceRatio
         DEFAULT_BASELINE_RANGES.jaw.chinRatio = 1 ∧
       (Metrics.calculateQualityScores DEFAULT_BASELINE_RANGES DEFAULT_WEIGHTING_FACTORS f).jaw
         ≤ 70) := by
  refine ⟨rfl, _, by with_unfolding_all rfl, by with_unfolding_all decide, ?_⟩
  exact jaw_chin_degenerate idSqrtPrims jawWitnessLandmarks _ rfl
    (by with_unfolding_all rfl) (by with_unfolding_all decide)

end SHEIKE
